import Mathlib

/-!
Shallow embedding of `examples/phone-chatbot/app.py` (the call-progress
tracker): the global `call_state` dictionary, the `/twilio` webhook handler
`handle_call`, the `/end` handler `end_call`, and `log_summary`.

Modelling conventions:
* Timestamps are integer seconds (`Int`).  The source works with
  `datetime.utcnow()` values and `.total_seconds()` differences; every
  comparison in the source is against the integer literal `10`, and all
  arithmetic on the modelled values is exact (sums and differences of
  timestamps), so integral seconds lose nothing the handlers can observe.
* `log_summary` in the source calls `datetime.utcnow()` a second time; we pass
  the same `now` since the two reads happen within one handler invocation.
* Python value-type tags matter in one place: the reset loop in `log_summary`
  runs `call_state[key] = 0 if isinstance(call_state[key], int) else None`.
  The field `silence_duration` starts as the `int` `0`, is set to the `int`
  `0` on a speech event, and is set to a `float` by
  `.total_seconds()` on a silence event; the reset therefore maps it to `0`
  when it is an `int` and to `None` when it is a `float`.  `PyNum` records
  this tag.  Moreover `f"{None:.2f}"` raises `TypeError`, and
  `datetime.utcnow() - None` raises `TypeError`; `log_summary` catches every
  exception internally, so on those inputs it logs nothing and, crucially,
  never reaches the reset loop.
* The request payload only influences the handler through
  `data.get("SpeechResult")` (the other fields are merely logged), so a parsed
  payload is modelled as `Option String`; Python truthiness of
  `if speech_result:` is `speechResult ≠ None ∧ speechResult ≠ ""`.
  `if call_state["last_speech_time"]:` tests a `datetime`-or-`None` value and
  a `datetime` is always truthy, so it is an `isSome` test.
* A `TypeError`/parse failure in the body of `handle_call` before the tracker
  logic (e.g. an unreadable form body) lands in its `except` clause, which
  returns the apologetic reprompt and leaves the state untouched;
  `handle_request` models that outer layer with `none` standing for an
  unparseable payload.
* `log_summary` only logs the summary; we surface the logged record as an
  `Option Summary` result so theorems can talk about it.
-/

namespace PhoneChatbot

/-- Tag for the Python runtime type of the `silence_duration` slot:
`intV` for Python `int`, `floatV` for Python `float` (the value itself is an
exact integer number of seconds in this model). -/
inductive PyNum where
  | intV (n : Int)
  | floatV (n : Int)
deriving DecidableEq, Repr

/-- The numeric value carried by a `PyNum`. -/
def PyNum.val : PyNum → Int
  | .intV n => n
  | .floatV n => n

/-- The reset loop `call_state[key] = 0 if isinstance(call_state[key], int)
else None` applied to the `silence_duration` slot. -/
def PyNum.reset : PyNum → Option PyNum
  | .intV _ => some (.intV 0)
  | .floatV _ => none

/-- The global `call_state` dictionary (app.py lines 54-61). -/
structure CallState where
  start_time : Option Int
  silence_events : Int
  user_utterances : Int
  unanswered_prompts : Int
  last_speech_time : Option Int
  silence_duration : Option PyNum
deriving DecidableEq, Repr

/-- The module-level initial value of `call_state`: timestamps `None`,
counters `0`, `silence_duration` the Python `int` `0`. -/
def initialState : CallState :=
  { start_time := none
    silence_events := 0
    user_utterances := 0
    unanswered_prompts := 0
    last_speech_time := none
    silence_duration := some (.intV 0) }

/-- The `TwilioResponse` pydantic model (app.py lines 71-75). -/
structure TwilioResponse where
  response : String
  pause : Option Int
  next_prompt : Option String
  end_call : Option Bool
deriving DecidableEq, Repr

/-- Response of the first-webhook branch (lines 161-164). -/
def greetResp : TwilioResponse :=
  { response := "Hello! This is your AI phone assistant."
    pause := some 5, next_prompt := none, end_call := none }

/-- Response of the speech branch (lines 173-177). -/
def ackResp (t : String) : TwilioResponse :=
  { response := "You said: " ++ t
    pause := some 5
    next_prompt := some "Do you want to continue?"
    end_call := none }

/-- Response of the long-silence reprompt (lines 197-200). -/
def quietResp : TwilioResponse :=
  { response := "I notice you\x27ve been quiet for a while. Are you still there?"
    pause := some 5, next_prompt := none, end_call := none }

/-- Response of the long-silence termination (lines 193-196). -/
def termResp : TwilioResponse :=
  { response := "No response detected after multiple attempts. Goodbye."
    pause := none, next_prompt := none, end_call := some true }

/-- Response of the short-silence fallthrough (lines 202-205). -/
def stillThereResp : TwilioResponse :=
  { response := "Are you still there?"
    pause := some 5, next_prompt := none, end_call := none }

/-- Response of `handle_call`'s `except` clause (lines 210-213). -/
def apologeticResp : TwilioResponse :=
  { response := "I apologize, but I\x27m having trouble processing your request. Please try again."
    pause := some 5, next_prompt := none, end_call := none }

/-- Response of the `/end` endpoint (lines 219-224). -/
def endResp : TwilioResponse :=
  { response := "Call ending. Goodbye."
    pause := none, next_prompt := none, end_call := some true }

/-- The call summary logged by `log_summary` (app.py lines 233-239). -/
structure Summary where
  durationSeconds : Int
  silenceEventCount : Int
  longestSilence : Int
  utteranceCount : Int
  unansweredPrompts : Int
deriving DecidableEq, Repr

/-- `log_summary` (app.py lines 230-246).  Computes
`duration = now - start_time`, logs the counters, then resets every field
(`int` slots to `0`, others to `None`).  When `start_time` is `None` the
duration subtraction raises `TypeError`; when `silence_duration` is `None`
the `:.2f` format raises `TypeError`; both are swallowed by the internal
`except`, so in those cases nothing is logged and the reset loop never runs:
the state is returned unchanged and the summary is `none`. -/
def log_summary (now : Int) (s : CallState) : Option Summary × CallState :=
  match s.start_time with
  | none => (none, s)
  | some st =>
    match s.silence_duration with
    | none => (none, s)
    | some sd =>
      (some { durationSeconds := now - st
              silenceEventCount := s.silence_events
              longestSilence := sd.val
              utteranceCount := s.user_utterances
              unansweredPrompts := s.unanswered_prompts },
       { start_time := none
         silence_events := 0
         user_utterances := 0
         unanswered_prompts := 0
         last_speech_time := none
         silence_duration := sd.reset })

/-- The `else` (no-speech) branch of `handle_call` (app.py lines 178-205):
increment `silence_events` and `unanswered_prompts`; if `last_speech_time` is
set, store the elapsed silence; if it is at least 10 seconds increment
`unanswered_prompts` a second time, terminate via `log_summary` when the
count reaches 3, otherwise play the long-silence reprompt; in every other
case answer the generic reprompt. -/
def silenceStep (s : CallState) (now : Int) :
    CallState × TwilioResponse × Option Summary :=
  let s1 := { s with silence_events := s.silence_events + 1
                     unanswered_prompts := s.unanswered_prompts + 1 }
  match s1.last_speech_time with
  | some lt =>
    let d := now - lt
    let s2 := { s1 with silence_duration := some (.floatV d) }
    if d ≥ 10 then
      let s3 := { s2 with unanswered_prompts := s2.unanswered_prompts + 1 }
      if s3.unanswered_prompts ≥ 3 then
        let r := log_summary now s3
        (r.2, termResp, r.1)
      else
        (s3, quietResp, none)
    else
      (s2, stillThereResp, none)
  | none => (s1, stillThereResp, none)

/-- The `/twilio` handler `handle_call` (app.py lines 127-213) after payload
parsing, acting on a parsed `SpeechResult` field (`none` = absent).  First
webhook (`start_time is None`): initialize the session and greet.  Otherwise
`if speech_result:` (truthy = present and non-empty) takes the speech branch
(lines 168-177), else the silence branch. -/
def handle_call (s : CallState) (speechResult : Option String) (now : Int) :
    CallState × TwilioResponse × Option Summary :=
  match s.start_time with
  | none =>
    ({ s with start_time := some now, last_speech_time := some now },
     greetResp, none)
  | some _ =>
    match speechResult with
    | some t =>
      if t.isEmpty then
        silenceStep s now
      else
        ({ s with user_utterances := s.user_utterances + 1
                  unanswered_prompts := 0
                  last_speech_time := some now
                  silence_duration := some (.intV 0) },
         ackResp t, none)
    | none => silenceStep s now

/-- The outer layer of `handle_call`: its `try`/`except` around form parsing.
`none` stands for a request whose payload cannot be parsed; the `except`
clause (lines 206-213) returns the apologetic reprompt without touching the
state.  A parsed payload is reduced to its `SpeechResult` field, the only
field the handler logic reads. -/
def handle_request (s : CallState) (payload : Option (Option String))
    (now : Int) : CallState × TwilioResponse × Option Summary :=
  match payload with
  | none => (s, apologeticResp, none)
  | some sr => handle_call s sr now

/-- The `/end` handler `end_call` (app.py lines 215-228): log the summary
(which also resets the state when it succeeds) and answer the goodbye with
`end_call=True`.  `log_summary` never raises to `end_call` (it catches
internally), so the goodbye is returned in every state. -/
def end_call (s : CallState) (now : Int) :
    CallState × TwilioResponse × Option Summary :=
  let r := log_summary now s
  (r.2, endResp, r.1)

/-- The tracker-level events of the specification, mapped onto the wire
protocol the code actually sees (spec section 6): a `Start` webhook carries
no `SpeechResult`, recognized speech carries the text, a silence poll
carries no `SpeechResult`, and `ExplicitEnd` is the `/end` endpoint. -/
inductive Event where
  | start
  | speechRecognized (text : String)
  | silence
  | explicitEnd
deriving DecidableEq, Repr

/-- Dispatch one tracker event to the code's handlers. -/
def handleEvent (s : CallState) (e : Event) (now : Int) :
    CallState × TwilioResponse × Option Summary :=
  match e with
  | .start => handle_call s none now
  | .speechRecognized t => handle_call s (some t) now
  | .silence => handle_call s none now
  | .explicitEnd => end_call s now

/-- Run a timestamped event sequence from a state, collecting each step's
response and logged summary. -/
def runEvents (s : CallState) :
    List (Event × Int) → CallState × List (TwilioResponse × Option Summary)
  | [] => (s, [])
  | (e, t) :: rest =>
    let step := handleEvent s e t
    let tail := runEvents step.1 rest
    (tail.1, (step.2.1, step.2.2) :: tail.2)

/-- Decision classification `Terminate`: the response carries
`end_call=True`. -/
def isTerminate (r : TwilioResponse) : Prop := r.end_call = some true

/-- Decision classification `Greet`. -/
def isGreet (r : TwilioResponse) : Prop := r = greetResp

/-- Decision classification `Reprompt`: one of the three reprompting
responses of the source. -/
def isReprompt (r : TwilioResponse) : Prop :=
  r = stillThereResp ∨ r = quietResp ∨ r = apologeticResp

/-- A response is one of the specified decision shapes. -/
def isDecision (r : TwilioResponse) : Prop :=
  isGreet r ∨ (∃ t, r = ackResp t) ∨ isReprompt r ∨ isTerminate r

instance : DecidablePred isTerminate := fun r =>
  inferInstanceAs (Decidable (r.end_call = some true))

instance : DecidablePred isGreet := fun r =>
  inferInstanceAs (Decidable (r = greetResp))

instance : DecidablePred isReprompt := fun r =>
  inferInstanceAs
    (Decidable (r = stillThereResp ∨ r = quietResp ∨ r = apologeticResp))

/-- C1: FALSE as stated.  The reachable state produced by the first webhook
at 0 and two short silences at 1 and 2 has a live session with
`unanswered_prompts = 2`; the next `Silence` at `now = 4` (elapsed `4 < 10`)
brings `consecutiveUnanswered` to `3` — the plain threshold is crossed —
yet the handler answers the generic reprompt, not `Terminate`: the source
checks the threshold only inside the `silence_duration >= 10` branch. -/
theorem C1_counterexample :
    runEvents initialState [(.start, 0), (.silence, 1), (.silence, 2)] =
      (⟨some 0, 2, 0, 2, some 0, some (.floatV 2)⟩,
       [(greetResp, none), (stillThereResp, none), (stillThereResp, none)])
    ∧ handle_call ⟨some 0, 2, 0, 2, some 0, some (.floatV 2)⟩ none 4 =
        (⟨some 0, 3, 0, 3, some 0, some (.floatV 4)⟩, stillThereResp, none)
    ∧ ¬ isTerminate stillThereResp := by
  refine ⟨rfl, rfl, ?_⟩
  decide

/-- C1 (amended): in every state with a session, a `Silence` event returns
`Terminate` exactly when the elapsed silence `now - lastSpeechAt` is at least
10 seconds AND `consecutiveUnanswered`, after its two increments for this
event, reaches 3; when the elapsed silence is under 10 seconds no threshold
check occurs at all and the result is a `Reprompt`, whatever the count. -/
theorem C1_amended_silence_decision (s : CallState) (st now : Int)
    (h : s.start_time = some st) :
    (isTerminate (handle_call s none now).2.1 ↔
      ∃ lt, s.last_speech_time = some lt ∧ now - lt ≥ 10 ∧
        s.unanswered_prompts + 2 ≥ 3)
    ∧ (¬ isTerminate (handle_call s none now).2.1 →
        isReprompt (handle_call s none now).2.1) := by
  obtain ⟨st0, se, uu, up, lst, sd⟩ := s
  simp only at h
  subst h
  cases lst with
  | none =>
    simp [handle_call, silenceStep, isTerminate, isReprompt, stillThereResp]
  | some lt =>
    by_cases hd : now - lt ≥ 10
    · by_cases h3 : up + 1 + 1 ≥ 3
      · constructor
        · simp [handle_call, silenceStep, hd, h3, isTerminate, log_summary,
                termResp]
          omega
        · intro hnt
          exact absurd (by simp [handle_call, silenceStep, hd, h3,
            isTerminate, log_summary, termResp]) hnt
      · constructor
        · simp [handle_call, silenceStep, hd, h3, isTerminate, quietResp]
          omega
        · intro _
          simp [handle_call, silenceStep, hd, h3, isReprompt, quietResp]
    · constructor
      · simp [handle_call, silenceStep, hd, isTerminate, stillThereResp]
      · intro _
        simp [handle_call, silenceStep, hd, isReprompt, stillThereResp]

/-- Witness for C1 (amended): at `start_time = 0`, `last_speech_time = 0`,
`unanswered_prompts = 2` and `now = 12` the elapsed silence is 12 ≥ 10 and
the incremented count is 4 ≥ 3, so the event terminates. -/
theorem C1_amended_witness :
    isTerminate (handle_call ⟨some 0, 0, 0, 2, some 0, some (.intV 0)⟩ none 12).2.1 :=
  (C1_amended_silence_decision ⟨some 0, 0, 0, 2, some 0, some (.intV 0)⟩ 0 12
      rfl).1.mpr ⟨0, rfl, by decide, by decide⟩

/-- C2: FALSE as stated.  `Start` at 0, `SpeechRecognized{"hello"}` at 1,
then three `Silence` events at 2, 3, 4 — all less than 10s after the last
speech — yield a generic `Reprompt` on the third silence as well, with the
session still open and `unanswered_prompts = 3` and no `Terminate`
anywhere: the code never terminates on short silences. -/
theorem C2_counterexample :
    runEvents initialState
      [(.start, 0), (.speechRecognized "hello", 1),
       (.silence, 2), (.silence, 3), (.silence, 4)] =
    (⟨some 0, 3, 1, 3, some 1, some (.floatV 3)⟩,
     [(greetResp, none), (ackResp "hello", none),
      (stillThereResp, none), (stillThereResp, none), (stillThereResp, none)])
    ∧ ¬ isTerminate stillThereResp := by
  refine ⟨rfl, ?_⟩
  decide

/-- C2 (amended): the round trip `Start` → `SpeechRecognized{"hello"}` →
`Silence` → `Silence` → `Silence` yields
`[Greet, Acknowledge("hello"), Reprompt, Reprompt, Terminate]` with final
`summary.utteranceCount = 1` and `summary.silenceEventCount = 3` — provided
the first two silences arrive less than 10 seconds after the speech and the
third at least 10 seconds after it (here at times 0, 1, 4, 8, 11); the
terminal summary also records `unansweredPrompts = 4` because of the double
increment on the long third silence. -/
theorem C2_amended_roundtrip :
    runEvents initialState
      [(.start, 0), (.speechRecognized "hello", 1),
       (.silence, 4), (.silence, 8), (.silence, 11)] =
    (⟨none, 0, 0, 0, none, none⟩,
     [(greetResp, none), (ackResp "hello", none),
      (stillThereResp, none), (stillThereResp, none),
      (termResp, some ⟨11, 3, 10, 1, 4⟩)]) := rfl

/-- C3: FALSE as stated.  From the initial state, a first webhook at 0 and
four silences at 1, 2, 3, 4 (each less than 10s after `last_speech_time`)
leave `unanswered_prompts = 4 > 3` with the session still active
(`start_time` still set) and not a single `Terminate` produced. -/
theorem C3_counterexample :
    runEvents initialState
      [(.start, 0), (.silence, 1), (.silence, 2), (.silence, 3), (.silence, 4)] =
    (⟨some 0, 4, 0, 4, some 0, some (.floatV 4)⟩,
     [(greetResp, none), (stillThereResp, none), (stillThereResp, none),
      (stillThereResp, none), (stillThereResp, none)])
    ∧ ((4 : Int) > 3 ∧ ¬ isTerminate stillThereResp) := by
  refine ⟨rfl, by decide, ?_⟩
  decide

/-- C3 (amended): `consecutiveUnanswered` can exceed the threshold 3 while
the call is live (silences under 10s elapsed never terminate); the same-step
termination guarantee holds only for the long-silence branch: whenever a
`Silence` event in a state with a session has elapsed `now - lastSpeechAt ≥
10` and its doubly-incremented count reaches 3, the handler produces
`Terminate` in that very step. -/
theorem C3_amended_threshold (s : CallState) (st lt now : Int)
    (h : s.start_time = some st) (hl : s.last_speech_time = some lt)
    (hd : now - lt ≥ 10) (hc : s.unanswered_prompts + 2 ≥ 3) :
    isTerminate (handle_call s none now).2.1 := by
  obtain ⟨st0, se, uu, up, lst, sd⟩ := s
  simp only at h hl hc
  subst h
  subst hl
  have h3 : up + 1 + 1 ≥ 3 := by omega
  simp [handle_call, silenceStep, hd, h3, isTerminate, log_summary, termResp]

/-- Witness for C3 (amended): `unanswered_prompts = 1`, elapsed `10 ≥ 10`,
`1 + 2 = 3 ≥ 3` terminates. -/
theorem C3_amended_witness :
    isTerminate (handle_call ⟨some 0, 0, 0, 1, some 0, some (.intV 0)⟩ none 10).2.1 :=
  C3_amended_threshold ⟨some 0, 0, 0, 1, some 0, some (.intV 0)⟩ 0 0 10
    rfl rfl (by decide) (by decide)

/-- C4: FALSE as stated.  From the state created by the first webhook
(`start_time = last_speech_time = 0`, counters 0), a second `Start` webhook
at `now = 1` is not a state-preserving no-op returning `Greet`: it is
processed by the silence branch, answers the generic reprompt, and mutates
the state (`silence_events` and `unanswered_prompts` become 1). -/
theorem C4_counterexample :
    (handleEvent ⟨some 0, 0, 0, 0, some 0, some (.intV 0)⟩ .start 1).2.1 = stillThereResp
    ∧ stillThereResp ≠ greetResp
    ∧ (handleEvent ⟨some 0, 0, 0, 0, some 0, some (.intV 0)⟩ .start 1).1 ≠
        ⟨some 0, 0, 0, 0, some 0, some (.intV 0)⟩ := by
  refine ⟨rfl, by decide, by decide⟩

/-- C4 (amended): `Start` with no existing session creates the session
(`startedAt = lastSpeechAt = now`) and returns `Greet`; but a `Start`
webhook arriving while a session exists is processed exactly as a `Silence`
event (the silence branch runs, so counters change or the call even
terminates) and never returns `Greet`: the greeting is not idempotent. -/
theorem C4_amended_start (s : CallState) (now : Int) :
    (s.start_time = none →
      handleEvent s .start now =
        ({ s with start_time := some now, last_speech_time := some now },
         greetResp, none))
    ∧ (∀ st : Int, s.start_time = some st →
        handleEvent s .start now = silenceStep s now
        ∧ (handleEvent s .start now).2.1 ≠ greetResp) := by
  obtain ⟨st0, se, uu, up, lst, sd⟩ := s
  constructor
  · intro h
    simp only at h
    subst h
    rfl
  · intro st h
    simp only at h
    subst h
    refine ⟨rfl, ?_⟩
    cases lst with
    | none =>
      simp [handleEvent, handle_call, silenceStep, stillThereResp, greetResp]
    | some lt =>
      by_cases hd : now - lt ≥ 10
      · by_cases h3 : up + 1 + 1 ≥ 3
        · simp [handleEvent, handle_call, silenceStep, hd, h3, log_summary,
                termResp, greetResp]
        · simp [handleEvent, handle_call, silenceStep, hd, h3,
                quietResp, greetResp]
      · simp [handleEvent, handle_call, silenceStep, hd,
              stillThereResp, greetResp]

/-- Witness for C4 (amended): the fresh-state half at `now = 7`, and the
existing-session half at the post-greet state with `now = 1`. -/
theorem C4_amended_witness :
    handleEvent initialState .start 7 =
      (⟨some 7, 0, 0, 0, some 7, some (.intV 0)⟩, greetResp, none)
    ∧ (handleEvent ⟨some 0, 0, 0, 0, some 0, some (.intV 0)⟩ .start 1).2.1 ≠ greetResp :=
  ⟨(C4_amended_start initialState 7).1 rfl,
   ((C4_amended_start ⟨some 0, 0, 0, 0, some 0, some (.intV 0)⟩ 1).2 0 rfl).2⟩

/-- C5: FALSE as stated.  In the initial state (no session), a
`SpeechRecognized{"hello"}` webhook does not increment `utteranceCount` and
does not return `Acknowledge`: it creates the session and returns `Greet`,
so `Greet` is not returned only for `Start`. -/
theorem C5_counterexample :
    handle_call initialState (some "hello") 0 =
      (⟨some 0, 0, 0, 0, some 0, some (.intV 0)⟩, greetResp, none)
    ∧ isGreet (handle_call initialState (some "hello") 0).2.1
    ∧ (handle_call initialState (some "hello") 0).1.user_utterances = 0 := by
  refine ⟨rfl, by decide, rfl⟩

/-- C5 (amended): in every state with an existing session, a
`SpeechRecognized` event with non-empty text increments `utteranceCount` by
1, resets `consecutiveUnanswered` to 0, sets `lastSpeechAt = now` and
returns `Acknowledge{text}`; and `Greet` is returned exactly when no
session exists — whatever the event. -/
theorem C5_amended_speech (s : CallState) (now : Int) :
    (∀ (st : Int) (t : String), s.start_time = some st → t.isEmpty = false →
      handle_call s (some t) now =
        ({ s with user_utterances := s.user_utterances + 1
                  unanswered_prompts := 0
                  last_speech_time := some now
                  silence_duration := some (.intV 0) },
         ackResp t, none))
    ∧ (∀ x : Option String,
        isGreet (handle_call s x now).2.1 ↔ s.start_time = none) := by
  obtain ⟨st0, se, uu, up, lst, sd⟩ := s
  constructor
  · intro st t h ht
    simp only at h
    subst h
    simp [handle_call, ht]
  · intro x
    cases st0 with
    | none => simp [handle_call, isGreet]
    | some st =>
      simp only [Option.some_ne_none, iff_false]
      cases x with
      | none =>
        cases lst with
        | none =>
          simp [handle_call, silenceStep, isGreet, stillThereResp, greetResp]
        | some lt =>
          by_cases hd : now - lt ≥ 10
          · by_cases h3 : up + 1 + 1 ≥ 3
            · simp [handle_call, silenceStep, hd, h3, log_summary, isGreet,
                    termResp, greetResp]
            · simp [handle_call, silenceStep, hd, h3, isGreet,
                    quietResp, greetResp]
          · simp [handle_call, silenceStep, hd, isGreet,
                  stillThereResp, greetResp]
      | some t =>
        by_cases ht : t.isEmpty
        · cases lst with
          | none =>
            simp [handle_call, silenceStep, ht, isGreet,
                  stillThereResp, greetResp]
          | some lt =>
            by_cases hd : now - lt ≥ 10
            · by_cases h3 : up + 1 + 1 ≥ 3
              · simp [handle_call, silenceStep, ht, hd, h3, log_summary,
                      isGreet, termResp, greetResp]
              · simp [handle_call, silenceStep, ht, hd, h3, isGreet,
                      quietResp, greetResp]
            · simp [handle_call, silenceStep, ht, hd, isGreet,
                    stillThereResp, greetResp]
        · simp [handle_call, ht, isGreet, ackResp, greetResp]

/-- Witness for C5 (amended): speaking "hi" at `now = 3` in the post-greet
state acknowledges and bumps the counters; and `Greet` in the initial
state. -/
theorem C5_amended_witness :
    handle_call ⟨some 0, 0, 0, 0, some 0, some (.intV 0)⟩ (some "hi") 3 =
      (⟨some 0, 0, 1, 0, some 3, some (.intV 0)⟩, ackResp "hi", none)
    ∧ isGreet (handle_call initialState none 0).2.1 :=
  ⟨(C5_amended_speech ⟨some 0, 0, 0, 0, some 0, some (.intV 0)⟩ 3).1 0 "hi"
      rfl rfl,
   ((C5_amended_speech initialState 0).2 none).mpr rfl⟩

/-- C6: a `Silence` event with elapsed `now - lastSpeechAt ≥ 10` increments
`consecutiveUnanswered` twice in the single handler call (once for any
silence, once more in the long-silence branch): when the incremented total
stays below 3 the new state carries `unanswered_prompts + 2`; and when the
count was 2 before the event, this very event terminates, the logged
summary recording the doubly-incremented count 4. -/
theorem C6_long_silence_double_increment (s : CallState) (st lt now : Int)
    (h : s.start_time = some st) (hl : s.last_speech_time = some lt)
    (hd : now - lt ≥ 10) :
    (s.unanswered_prompts + 2 < 3 →
      (handle_call s none now).1.unanswered_prompts = s.unanswered_prompts + 2
      ∧ (handle_call s none now).2.1 = quietResp)
    ∧ (s.unanswered_prompts = 2 →
        isTerminate (handle_call s none now).2.1
        ∧ (handle_call s none now).2.2 =
            some { durationSeconds := now - st
                   silenceEventCount := s.silence_events + 1
                   longestSilence := now - lt
                   utteranceCount := s.user_utterances
                   unansweredPrompts := 4 }) := by
  obtain ⟨st0, se, uu, up, lst, sd⟩ := s
  simp only at h hl
  subst h
  subst hl
  constructor
  · intro hlt
    simp only at hlt
    have h3 : ¬ (up + 1 + 1 ≥ 3) := by omega
    constructor
    · simp [handle_call, silenceStep, hd, h3]
      omega
    · simp [handle_call, silenceStep, hd, h3]
  · intro h2
    simp only at h2
    subst h2
    refine ⟨?_, ?_⟩
    · simp [handle_call, silenceStep, hd, isTerminate, log_summary, termResp]
    · simp [handle_call, silenceStep, hd, log_summary, PyNum.val]

/-- Witness for C6: after the greet at 0 and two unanswered prompts, a
silence at `now = 11` (elapsed 11 ≥ 10) terminates with the summary showing
the count jump from 2 to 4. -/
theorem C6_witness :
    isTerminate (handle_call ⟨some 0, 1, 0, 2, some 0, some (.intV 0)⟩ none 11).2.1
    ∧ (handle_call ⟨some 0, 1, 0, 2, some 0, some (.intV 0)⟩ none 11).2.2 =
        some ⟨11, 2, 11, 0, 4⟩ :=
  (C6_long_silence_double_increment ⟨some 0, 1, 0, 2, some 0, some (.intV 0)⟩
      0 0 11 rfl rfl (by decide)).2 rfl

/-- C7: in every state with a session (`startedAt` set), `ExplicitEnd` (the
`/end` endpoint) immediately returns the goodbye response with
`end_call=True` — a `Terminate` decision — whatever the counters hold,
including right after `Start`. -/
theorem C7_explicit_end (s : CallState) (st now : Int)
    (_h : s.start_time = some st) :
    (end_call s now).2.1 = endResp ∧ isTerminate (end_call s now).2.1 := by
  exact ⟨rfl, rfl⟩

/-- Witness for C7: `/end` right after the greet at 0 terminates. -/
theorem C7_witness :
    (end_call ⟨some 0, 0, 0, 0, some 0, some (.intV 0)⟩ 1).2.1 = endResp
    ∧ isTerminate (end_call ⟨some 0, 0, 0, 0, some 0, some (.intV 0)⟩ 1).2.1 :=
  C7_explicit_end ⟨some 0, 0, 0, 0, some 0, some (.intV 0)⟩ 0 1 rfl

/-- C8: the code contradicts the claimed full reset.  The trace: first
webhook at 0 (Greet); silences at 10 and 20 (the second terminates; the
reset maps the float `silence_duration` to `None`); new call's first
webhook at 30 (Greet); `/end` at 31 — a `Terminate` decision, but
`log_summary` hits the `TypeError` of formatting `silence_duration = None`
with `:.2f` before its reset loop, so the session is NOT cleared
(`start_time` stays `30`); the next start webhook at 40 is therefore
handled as a long silence and answers the quiet reprompt instead of a
fresh `Greet`. -/
theorem C8_reset_failure_trace :
    runEvents initialState
      [(.start, 0), (.silence, 10), (.silence, 20),
       (.start, 30), (.explicitEnd, 31), (.start, 40)] =
    (⟨some 30, 1, 0, 2, some 30, some (.floatV 10)⟩,
     [(greetResp, none), (quietResp, none),
      (termResp, some ⟨20, 2, 20, 0, 4⟩),
      (greetResp, none), (endResp, none), (quietResp, none)])
    ∧ isTerminate endResp ∧ quietResp ≠ greetResp := by
  refine ⟨rfl, rfl, ?_⟩
  decide

/-- C9: the tracker logic is total — every event in every state yields one
of the specified decision shapes (Greet, Acknowledge, Reprompt or
Terminate) — and an unparseable payload is answered by the generic
apologetic reprompt with the state untouched, not a propagated fault. -/
theorem C9_total_and_graceful :
    (∀ (s : CallState) (e : Event) (now : Int),
      isDecision (handleEvent s e now).2.1)
    ∧ (∀ (s : CallState) (now : Int),
        handle_request s none now = (s, apologeticResp, none))
    ∧ isReprompt apologeticResp := by
  refine ⟨?_, fun s now => rfl, Or.inr (Or.inr rfl)⟩
  intro s e now
  have hsil : ∀ (s2 : CallState) (n2 : Int), isDecision (silenceStep s2 n2).2.1 := by
    intro s2 n2
    unfold silenceStep
    cases s2.last_speech_time with
    | none => exact Or.inr (Or.inr (Or.inl (Or.inl rfl)))
    | some lt =>
      by_cases hd : n2 - lt ≥ 10
      · by_cases h3 : s2.unanswered_prompts + 1 + 1 ≥ 3
        · simp only [hd, if_true, h3]
          exact Or.inr (Or.inr (Or.inr rfl))
        · simp only [hd, if_true, h3, if_false]
          exact Or.inr (Or.inr (Or.inl (Or.inr (Or.inl rfl))))
      · simp only [hd, if_false]
        exact Or.inr (Or.inr (Or.inl (Or.inl rfl)))
  have hcall : ∀ (s2 : CallState) (x : Option String) (n2 : Int),
      isDecision (handle_call s2 x n2).2.1 := by
    intro s2 x n2
    unfold handle_call
    cases s2.start_time with
    | none => exact Or.inl rfl
    | some st =>
      cases x with
      | none => exact hsil s2 n2
      | some t =>
        by_cases ht : t.isEmpty
        · simp only [ht, if_true]
          exact hsil s2 n2
        · simp only [ht, if_false]
          exact Or.inr (Or.inl ⟨t, rfl⟩)
  cases e with
  | start => exact hcall s none now
  | speechRecognized t => exact hcall s (some t) now
  | silence => exact hcall s none now
  | explicitEnd => exact Or.inr (Or.inr (Or.inr rfl))

/-- C10: with a session in place, a `SpeechResult` consisting only of
whitespace (here `" "`) is truthy in Python and therefore handled as
recognized speech — `utteranceCount` is incremented, the unanswered count
reset, the whitespace echoed in the acknowledgement — while exactly the
absent (`None`) and the empty (`""`) payloads run the silence branch. -/
theorem C10_whitespace_is_speech (s : CallState) (st now : Int)
    (h : s.start_time = some st) :
    handle_call s (some " ") now =
      ({ s with user_utterances := s.user_utterances + 1
                unanswered_prompts := 0
                last_speech_time := some now
                silence_duration := some (.intV 0) },
       ackResp " ", none)
    ∧ handle_call s none now = silenceStep s now
    ∧ handle_call s (some "") now = silenceStep s now
    ∧ (∀ t : String, t.isEmpty = false →
        handle_call s (some t) now =
          ({ s with user_utterances := s.user_utterances + 1
                    unanswered_prompts := 0
                    last_speech_time := some now
                    silence_duration := some (.intV 0) },
           ackResp t, none)) := by
  obtain ⟨st0, se, uu, up, lst, sd⟩ := s
  simp only at h
  subst h
  refine ⟨rfl, rfl, rfl, ?_⟩
  intro t ht
  simp [handle_call, ht]

/-- Witness for C10: in the post-greet state at `now = 1`, speaking `" "`
acknowledges the whitespace, and an absent `SpeechResult` runs the silence
branch. -/
theorem C10_witness :
    handle_call ⟨some 0, 0, 0, 0, some 0, some (.intV 0)⟩ (some " ") 1 =
      (⟨some 0, 0, 1, 0, some 1, some (.intV 0)⟩, ackResp " ", none)
    ∧ handle_call ⟨some 0, 0, 0, 0, some 0, some (.intV 0)⟩ none 1 =
        silenceStep ⟨some 0, 0, 0, 0, some 0, some (.intV 0)⟩ 1 :=
  ⟨(C10_whitespace_is_speech ⟨some 0, 0, 0, 0, some 0, some (.intV 0)⟩ 0 1 rfl).1,
   (C10_whitespace_is_speech ⟨some 0, 0, 0, 0, some 0, some (.intV 0)⟩ 0 1 rfl).2.1⟩

end PhoneChatbot
